import Mathlib

/-!
# Verification of the conntracct event-distribution and sink pipeline

Shallow embedding of the repository's sink and sampling code:

* `src/internal/sinks/types/sink_type.go` — the `SinkType` enum.
* `src/internal/sinks/dummy/dummy.go` — the `Dummy` sink.
* `src/unnamed/part_000` — the InfluxDB sink's `sendWorker` and `tickWorker`.
* `src/unnamed/part_001` — the BPF integration tests pinning the sampling
  policy (startup burst and cooldown).

Go structs become Lean structures; pointer-receiver methods become
state-passing functions; Go `error` results become `Option String`
(`none` = `nil`); channels become FIFO lists; the backend client's
`Write` becomes a boolean oracle (`true` = `nil` error). Types whose
defining files are not among the provided sources (`SinkStats`,
`SinkConfig`, `bpf.Event`, the in-kernel sampling program, the influx
sink's `Push` and `newBatch`) are modelled from the spec, each marked so
in its doc comment.
-/

namespace Conntracct

/-! ## Event model -/

/-- Modelled from the spec: the event kind enum of §3 — the file defining
the accounting event is not among the provided sources. Update events are
periodic snapshots of a live flow; Destroy is the terminal snapshot. -/
inductive EventKind where
  | update
  | destroy
deriving Repr, DecidableEq

/-- Modelled from the spec: the accounting event record (`bpf.Event` /
`AcctEvent`) of §3 — its defining file is not among the provided sources.
Fields: kind, 5-tuple, per-direction packet/byte counters, network
namespace, connmark. Addresses and ports are opaque numbers here. -/
structure AcctEvent where
  kind : EventKind := EventKind.update
  proto : Nat := 0
  srcAddr : Nat := 0
  dstAddr : Nat := 0
  srcPort : Nat := 0
  dstPort : Nat := 0
  packetsOrig : Nat := 0
  bytesOrig : Nat := 0
  packetsRet : Nat := 0
  bytesRet : Nat := 0
  netNS : Nat := 0
  connmark : Nat := 0
deriving Repr, DecidableEq

/-! ## SinkType (src/internal/sinks/types/sink_type.go) -/

/-- SinkType represents the type of Sink
(src/internal/sinks/types/sink_type.go line 5): a Go `uint8`. -/
abbrev SinkType := Fin 256

/-- First constant of the `iota` enum block (line 9). -/
def StdIO : SinkType := 0

/-- Second constant of the `iota` enum block (line 10). -/
def InfluxUDP : SinkType := 1

/-- Third constant of the `iota` enum block (line 11). -/
def InfluxHTTP : SinkType := 2

/-- Fourth constant of the `iota` enum block (line 12). -/
def Elastic : SinkType := 3

/-- The named constants declared in the `const` enum block of
sink_type.go (lines 8-13), in declaration order, with the values `iota`
assigns them. This is the complete roster: the block closes after
`Elastic` and the file declares nothing else. -/
def sinkTypeConsts : List (String × SinkType) :=
  [("StdIO", StdIO), ("InfluxUDP", InfluxUDP),
   ("InfluxHTTP", InfluxHTTP), ("Elastic", Elastic)]

/-! ## SinkConfig and SinkStats (modelled from the spec) -/

/-- Modelled from the spec: `types.SinkConfig` (§3) — its defining file is
not among the provided sources; only its use `d.config.Name` in dummy.go
is. Immutable configuration captured at Init time: name, sink-type enum,
flush interval, batch size limits (connection parameters folded into the
opaque fields). Go zero value: empty name, zero numerics. -/
structure SinkConfig where
  Name : String := ""
  typ : SinkType := StdIO
  flushIntervalMillis : Nat := 0
  batchSizeLimit : Nat := 0
deriving Repr, DecidableEq

/-- Modelled from the spec: `types.SinkStats` (§3) — its defining file is
not among the provided sources; its methods `IncrEventsPushed`,
`IncrBatchDropped`, `IncrBatchSent` and `Get` are named by their callers
in dummy.go and src/unnamed/part_000. Three monotonic counters with
atomic increments and a snapshot accessor. -/
structure SinkStats where
  eventsPushed : Nat := 0
  batchesSent : Nat := 0
  batchesDropped : Nat := 0
deriving Repr, DecidableEq

/-- Atomically increment the `eventsPushed` counter. -/
def SinkStats.IncrEventsPushed (s : SinkStats) : SinkStats :=
  { s with eventsPushed := s.eventsPushed + 1 }

/-- Atomically increment the `batchesSent` counter. -/
def SinkStats.IncrBatchSent (s : SinkStats) : SinkStats :=
  { s with batchesSent := s.batchesSent + 1 }

/-- Atomically increment the `batchesDropped` counter. -/
def SinkStats.IncrBatchDropped (s : SinkStats) : SinkStats :=
  { s with batchesDropped := s.batchesDropped + 1 }

/-- Snapshot accessor: returns a consistent copy of the counters. -/
def SinkStats.Get (s : SinkStats) : SinkStats := s

/-! ## The Dummy sink (src/internal/sinks/dummy/dummy.go) -/

/-- Dummy is an accounting sink that does nothing (dummy.go lines 9-18).
Fields: the `init` flag, the configuration object, the stats. -/
structure Dummy where
  init : Bool := false
  config : SinkConfig := {}
  stats : SinkStats := {}
deriving Repr, DecidableEq

/-- New returns a new Dummy (dummy.go lines 21-23): the Go zero value
`Dummy{}`. -/
def Dummy.New : Dummy := {}

/-- Init initializes the Dummy sink (dummy.go lines 26-30): stores the
config, sets the init flag, returns `nil` (here `none`). -/
def Dummy.Init (d : Dummy) (sc : SinkConfig) : Dummy × Option String :=
  ({ d with config := sc, init := true }, none)

/-- Push sends an event into the abyss (dummy.go lines 33-36): increments
`eventsPushed` then `batchesDropped`. The Go signature returns nothing, so
the model is a total state transformer with no error component. -/
def Dummy.Push (d : Dummy) (_e : AcctEvent) : Dummy :=
  { d with stats := d.stats.IncrEventsPushed.IncrBatchDropped }

/-- Name gets the name of the Dummy (dummy.go lines 39-41). -/
def Dummy.Name (d : Dummy) : String := d.config.Name

/-- IsInit checks if the Dummy was successfully initialized
(dummy.go lines 44-46). -/
def Dummy.IsInit (d : Dummy) : Bool := d.init

/-- WantUpdate always returns true (dummy.go lines 49-51). -/
def Dummy.WantUpdate (_d : Dummy) : Bool := true

/-- WantDestroy always returns true (dummy.go lines 54-56). -/
def Dummy.WantDestroy (_d : Dummy) : Bool := true

/-- Stats returns the Dummy's statistics structure (dummy.go lines 59-61):
a snapshot via `Get`. -/
def Dummy.Stats (d : Dummy) : SinkStats := d.stats.Get

/-- The operations callable on a Dummy sink that take a receiver: `Init`,
`Push`, and the read-only accessors (`Name`, `IsInit`, `WantUpdate`,
`WantDestroy`, `Stats`), the latter grouped as one no-op on state. -/
inductive DummyOp where
  | initOp (sc : SinkConfig)
  | pushOp (e : AcctEvent)
  | readOp
deriving Repr

/-- State transition of one Dummy operation (read-only accessors leave the
receiver untouched; `Init`'s error result is discarded by the driver). -/
def Dummy.applyOp (d : Dummy) : DummyOp → Dummy
  | DummyOp.initOp sc => (d.Init sc).1
  | DummyOp.pushOp e => d.Push e
  | DummyOp.readOp => d

/-- Run a sequence of operations on a Dummy sink, starting from `d`. -/
def Dummy.runOps (d : Dummy) (ops : List DummyOp) : Dummy :=
  ops.foldl Dummy.applyOp d

/-! ## The InfluxDB sink workers (src/unnamed/part_000) -/

/-- A batch of encoded points, as seen by the workers: `s.batch.Points()`
in the source returns the point slice; individual points are opaque to the
worker logic and modelled as natural numbers. -/
structure Batch where
  points : List Nat := []
deriving Repr, DecidableEq

/-- Points returns the slice of points in the batch
(used at src/unnamed/part_000 line 42). -/
def Batch.Points (b : Batch) : List Nat := b.points

/-- The InfluxSink state touched by the two workers of
src/unnamed/part_000: the active batch (guarded by `batchMu`), the
`sendChan` hand-off channel (a FIFO, head = next to be received), and the
stats. `handed` and `written` are history variables recording, in order,
the batches the tick worker handed to `sendChan` and the batches the send
worker passed to `client.Write`; they exist only to state ordering
properties and are appended to, never read, by the steps. -/
structure InfluxSink where
  batch : Batch := {}
  sendChan : List Batch := []
  stats : SinkStats := {}
  handed : List Batch := []
  written : List Batch := []
deriving Repr, DecidableEq

/-- One firing of the tickWorker's ticker (src/unnamed/part_000 lines
37-48): under `batchMu`, if the active batch has a non-zero number of
points, send it to `sendChan` and call `newBatch`; otherwise take no
action. `newBatch` is not among the provided sources; modelled from the
spec (§4.4): it allocates a new empty batch. -/
def tickStep (s : InfluxSink) : InfluxSink :=
  if s.batch.Points.length ≠ 0 then
    { s with
      sendChan := s.sendChan ++ [s.batch]
      handed := s.handed ++ [s.batch]
      batch := {} }
  else s

/-- One iteration of sendWorker (src/unnamed/part_000 lines 13-28):
receive a batch from `sendChan` and call `client.Write` on it; if that
errors, log and increment `batchesDropped`, then `continue`; otherwise
increment `batchesSent`. The backend client is the oracle `write`
(`write b = true` models a `nil` error). With an empty channel the worker
is blocked on the receive: a no-op step. -/
def sendStep (write : Batch → Bool) (s : InfluxSink) : InfluxSink :=
  match s.sendChan with
  | [] => s
  | b :: rest =>
    { s with
      sendChan := rest
      written := s.written ++ [b]
      stats := if write b then s.stats.IncrBatchSent
               else s.stats.IncrBatchDropped }

/-- Modelled from the spec: the batching sink's `Push` (§4.4) — its source
is not among the provided files. It appends the event's encoded point to
the active batch under the batch lock and increments `eventsPushed`. -/
def pushStep (p : Nat) (s : InfluxSink) : InfluxSink :=
  { s with
    batch := { points := s.batch.points ++ [p] }
    stats := s.stats.IncrEventsPushed }

/-- The atomic events of one sink instance's life: an ingestion call, a
ticker firing, and the send worker completing one receive-write cycle. -/
inductive SinkOp where
  | push (p : Nat)
  | tick
  | deliver
deriving Repr

/-- Interleaving semantics: each operation is one critical section (the
lock discipline is verified separately on the instruction traces). -/
def sinkStep (write : Batch → Bool) (s : InfluxSink) : SinkOp → InfluxSink
  | SinkOp.push p => pushStep p s
  | SinkOp.tick => tickStep s
  | SinkOp.deliver => sendStep write s

/-- Run an arbitrary interleaving of pushes, ticks and deliveries. -/
def sinkRun (write : Batch → Bool) (s : InfluxSink) (ops : List SinkOp) :
    InfluxSink :=
  ops.foldl (sinkStep write) s

/-! ## Lock discipline of the workers, as instruction traces

The bodies of `tickWorker` and `sendWorker` are small enough to transcribe
instruction by instruction; the mutex facts of the spec are then decidable
statements about which instructions execute between `Lock` and `Unlock`. -/

/-- The atomic instructions appearing in the bodies of the two workers of
src/unnamed/part_000, in source order of first appearance. -/
inductive Instr where
  | chanRecvBatch
  | clientWrite
  | logWriteError
  | incrBatchDropped
  | incrBatchSent
  | lockBatchMu
  | checkBatchLen
  | chanSendBatch
  | callNewBatch
  | unlockBatchMu
deriving Repr, DecidableEq

/-- One iteration of the tickWorker loop when `len(s.batch.Points()) != 0`
(src/unnamed/part_000 lines 39-47). -/
def tickWorkerIter : List Instr :=
  [Instr.lockBatchMu, Instr.checkBatchLen, Instr.chanSendBatch,
   Instr.callNewBatch, Instr.unlockBatchMu]

/-- One iteration of the tickWorker loop when the batch is empty: the
`if` body is skipped. -/
def tickWorkerIterEmpty : List Instr :=
  [Instr.lockBatchMu, Instr.checkBatchLen, Instr.unlockBatchMu]

/-- One iteration of the sendWorker loop when `client.Write` fails
(src/unnamed/part_000 lines 15-23): receive, write, log, increment the
dropped counter, `continue`. -/
def sendWorkerIterErr : List Instr :=
  [Instr.chanRecvBatch, Instr.clientWrite, Instr.logWriteError,
   Instr.incrBatchDropped]

/-- One iteration of the sendWorker loop when `client.Write` succeeds
(src/unnamed/part_000 lines 15-27): receive, write, increment the sent
counter. -/
def sendWorkerIterOk : List Instr :=
  [Instr.chanRecvBatch, Instr.clientWrite, Instr.incrBatchSent]

/-- The instructions of a trace executed while `batchMu` is held, given
whether it is held on entry. -/
def lockHeldInstrs : Bool → List Instr → List Instr
  | _, [] => []
  | _, Instr.lockBatchMu :: rest => lockHeldInstrs true rest
  | _, Instr.unlockBatchMu :: rest => lockHeldInstrs false rest
  | true, i :: rest => i :: lockHeldInstrs true rest
  | false, _ :: rest => lockHeldInstrs false rest

/-- The instructions of a trace strictly between the hand-off
(`s.sendChan <- s.batch`) and the next `Unlock`, for stating how promptly
the lock is released after the hand-off. -/
def betweenHandoffAndUnlock : List Instr → List Instr
  | [] => []
  | Instr.chanSendBatch :: rest => afterHandoff rest
  | _ :: rest => betweenHandoffAndUnlock rest
where
  /-- Collect instructions until the next `Unlock`. -/
  afterHandoff : List Instr → List Instr
    | [] => []
    | Instr.unlockBatchMu :: _ => []
    | i :: rest => i :: afterHandoff rest

/-! ## Sampling policy: startup burst (pinned by src/unnamed/part_001)

The BPF program that implements the sampling policy is not among the
provided sources; its externally observable behaviour is pinned by the
integration tests in src/unnamed/part_001, which are therefore the
embedded source here. The header comment of `TestAcctProbeStartup`
(lines 71-72) states the burst logs "packet 1, 2, 8 and 32 of a flow",
and the test body enforces exactly that: after `Ping(1)` (packets 1-2,
both directions summed) it reads exactly two events; after `Ping(3)`
(packets 3-8) exactly one event, asserted to carry cumulative count 8;
after `Ping(12)` (packets 9-32) exactly one event, asserted to carry
count 32; any further read must time out. `TestAcctProbeLongterm`
(lines 133-137) drains the full 32-packet burst as exactly 4 events. -/

/-- Whether the sampling policy reports an Update at cumulative two-way
packet count `n` during the startup burst, as pinned by the assertions of
TestAcctProbeStartup and TestAcctProbeLongterm (src/unnamed/part_001). -/
def burstReport (n : Nat) : Bool :=
  n == 1 || n == 2 || n == 8 || n == 32

/-- The cumulative packet counts at which Update events are reported when
a fresh flow is driven packet-by-packet up to `total` packets, the
cooldown window still closed. -/
def burstEvents (total : Nat) : List Nat :=
  ((List.range total).map (· + 1)).filter burstReport

/-! ## Sampling policy: steady-state cooldown gate -/

/-- Modelled from the spec: the per-flow steady state of the sampling
policy (§4.2) — the BPF program implementing it is not among the provided
sources. The flow's conntrack record keeps the cumulative packet count
and the (millisecond) timestamp of the last reported Update. -/
structure FlowState where
  packets : Nat := 0
  lastReport : Nat := 0
deriving Repr, DecidableEq

/-- Modelled from the spec: the steady-state decision taken on each
observed packet (§4.2) — packet-driven with a minimum-interval gate, not
a wall-clock tick. A packet arriving at time `t` increments the flow's
packet count and triggers an Update exactly when at least `cooldown`
milliseconds have elapsed since the last report; a report resets the
gate's timestamp to `t`. -/
def cooldownStep (cooldown : Nat) (st : FlowState) (t : Nat) :
    FlowState × Bool :=
  let st' : FlowState := { st with packets := st.packets + 1 }
  if st.lastReport + cooldown ≤ t then
    ({ st' with lastReport := t }, true)
  else
    (st', false)

/-- Drive a flow in steady state through packets at the given timestamps;
returns the timestamps at which Updates are reported, in order. -/
def cooldownRun (cooldown : Nat) (st : FlowState) : List Nat → List Nat
  | [] => []
  | t :: ts =>
    let r := cooldownStep cooldown st t
    if r.2 then t :: cooldownRun cooldown r.1 ts
    else cooldownRun cooldown r.1 ts

/-! ## Helper lemmas -/

/-- One Dummy operation preserves the counter invariant
`eventsPushed = batchesDropped ∧ batchesSent = 0`. -/
theorem Dummy.applyOp_invariant (d : Dummy) (op : DummyOp)
    (h1 : d.stats.eventsPushed = d.stats.batchesDropped)
    (h2 : d.stats.batchesSent = 0) :
    (d.applyOp op).stats.eventsPushed = (d.applyOp op).stats.batchesDropped ∧
    (d.applyOp op).stats.batchesSent = 0 := by
  cases op <;>
    simp [Dummy.applyOp, Dummy.Init, Dummy.Push,
      SinkStats.IncrEventsPushed, SinkStats.IncrBatchDropped, h1, h2]

/-- Any operation sequence preserves the Dummy counter invariant. -/
theorem Dummy.runOps_invariant (ops : List DummyOp) (d : Dummy)
    (h1 : d.stats.eventsPushed = d.stats.batchesDropped)
    (h2 : d.stats.batchesSent = 0) :
    (d.runOps ops).stats.eventsPushed = (d.runOps ops).stats.batchesDropped ∧
    (d.runOps ops).stats.batchesSent = 0 := by
  induction ops generalizing d with
  | nil => exact ⟨h1, h2⟩
  | cons op rest ih =>
    have h := Dummy.applyOp_invariant d op h1 h2
    exact ih (d.applyOp op) h.1 h.2

/-- One interleaving step preserves the hand-off bookkeeping invariant:
the batches already passed to `client.Write`, followed by those still in
`sendChan`, are exactly the batches the tick worker closed, in order. -/
theorem sinkStep_handed_eq (write : Batch → Bool) (s : InfluxSink)
    (op : SinkOp)
    (h : s.written ++ s.sendChan = s.handed) :
    (sinkStep write s op).written ++ (sinkStep write s op).sendChan =
      (sinkStep write s op).handed := by
  cases op with
  | push p => simpa [sinkStep, pushStep] using h
  | tick =>
    by_cases hb : s.batch.Points.length ≠ 0
    · simp only [sinkStep, tickStep, if_pos hb]
      rw [← List.append_assoc, h]
    · simpa [sinkStep, tickStep, hb] using h
  | deliver =>
    cases hc : s.sendChan with
    | nil => simpa [sinkStep, sendStep, hc] using h
    | cons b rest =>
      simp only [sinkStep, sendStep, hc]
      rw [List.append_assoc, ← h, hc]
      simp

/-- Any interleaving of pushes, ticks and deliveries preserves the
hand-off bookkeeping invariant. -/
theorem sinkRun_handed_eq (write : Batch → Bool) (ops : List SinkOp)
    (s : InfluxSink)
    (h : s.written ++ s.sendChan = s.handed) :
    (sinkRun write s ops).written ++ (sinkRun write s ops).sendChan =
      (sinkRun write s ops).handed := by
  induction ops generalizing s with
  | nil => exact h
  | cons op rest ih => exact ih (sinkStep write s op) (sinkStep_handed_eq write s op h)

/-- First packets are reported no earlier than one cooldown after the
state's last report: every timestamp the steady-state gate reports is at
least `lastReport + cooldown`. -/
theorem cooldownRun_lower_bound (c : Nat) (ts : List Nat) (st : FlowState)
    (u : Nat) (hu : u ∈ cooldownRun c st ts) :
    st.lastReport + c ≤ u := by
  induction ts generalizing st with
  | nil => simp [cooldownRun] at hu
  | cons t ts ih =>
    by_cases hg : st.lastReport + c ≤ t
    · have hrun : cooldownRun c st (t :: ts) =
          t :: cooldownRun c { st with packets := st.packets + 1, lastReport := t } ts := by
        simp [cooldownRun, cooldownStep, hg]
      rw [hrun] at hu
      rcases List.mem_cons.mp hu with rfl | hu'
      · exact hg
      · have := ih _ hu'
        have ht : st.lastReport + c ≤ t + c := by
          have : st.lastReport ≤ t := le_trans (Nat.le_add_right _ c) hg
          exact Nat.add_le_add_right this c
        exact le_trans hg (le_trans (Nat.le_add_right t c) (by simpa using this))
    · have hrun : cooldownRun c st (t :: ts) =
          cooldownRun c { st with packets := st.packets + 1 } ts := by
        simp [cooldownRun, cooldownStep, hg]
      rw [hrun] at hu
      exact ih { st with packets := st.packets + 1 } hu

/-- Successive reported updates of the steady-state gate are at least one
cooldown apart. -/
theorem cooldownRun_chain (c : Nat) (ts : List Nat) (st : FlowState) :
    List.Chain' (fun a b => a + c ≤ b) (cooldownRun c st ts) := by
  induction ts generalizing st with
  | nil => simp [cooldownRun]
  | cons t ts ih =>
    by_cases hg : st.lastReport + c ≤ t
    · have hrun : cooldownRun c st (t :: ts) =
          t :: cooldownRun c { st with packets := st.packets + 1, lastReport := t } ts := by
        simp [cooldownRun, cooldownStep, hg]
      rw [hrun]
      refine List.chain'_cons'.mpr ⟨?_, ih _⟩
      intro y hy
      exact cooldownRun_lower_bound c ts _ y (List.mem_of_mem_head? hy)
    · have hrun : cooldownRun c st (t :: ts) =
          cooldownRun c { st with packets := st.packets + 1 } ts := by
        simp [cooldownRun, cooldownStep, hg]
      rw [hrun]
      exact ih _

/-! ## Claim theorems -/

/-- C1 (counterexample): the claim that a newly observed flow reports an
Update at cumulative packet counts exactly 1, 2, 4, 8, 16 and 32 is false
for the sampling policy the integration tests pin down: at counts 4 and
16 no event is reported, so the event-count list for a flow driven
packet-by-packet to 32 packets is not [1, 2, 4, 8, 16, 32]. -/
theorem C1_burst_counterexample :
    burstReport 4 = false ∧ burstReport 16 = false ∧
    burstEvents 32 ≠ [1, 2, 4, 8, 16, 32] := by decide

/-- C1 (amended): for a newly observed flow driven packet-by-packet,
Update events are reported at cumulative two-way packet counts exactly 1,
2, 8 and 32 — and at no other counts — before the cooldown window opens:
after 2 packets the events so far are [1, 2] (the two reads after
`Ping(1)`), after 8 packets [1, 2, 8] (one further read asserting 8),
after 32 packets [1, 2, 8, 32] (one further read asserting 32, then
timeout), 4 events in total as drained by TestAcctProbeLongterm. -/
theorem C1_burst_amended :
    burstEvents 2 = [1, 2] ∧
    burstEvents 8 = [1, 2, 8] ∧
    burstEvents 32 = [1, 2, 8, 32] ∧
    (burstEvents 32).length = 4 := by decide

/-- C2: in the tick worker's loop body, the instructions executed while
`batchMu` is held are exactly the emptiness check, the hand-off to the
delivery channel and the batch swap (just the check when the batch is
empty); the only instruction between the hand-off and the unlock is the
swap; the send worker never takes the lock, so no instruction of its body
— in particular the backend `client.Write` — ever runs under `batchMu`. -/
theorem C2_lock_discipline :
    lockHeldInstrs false tickWorkerIter =
      [Instr.checkBatchLen, Instr.chanSendBatch, Instr.callNewBatch] ∧
    lockHeldInstrs false tickWorkerIterEmpty = [Instr.checkBatchLen] ∧
    betweenHandoffAndUnlock tickWorkerIter = [Instr.callNewBatch] ∧
    Instr.lockBatchMu ∉ sendWorkerIterOk ∧
    Instr.lockBatchMu ∉ sendWorkerIterErr ∧
    lockHeldInstrs false sendWorkerIterOk = [] ∧
    lockHeldInstrs false sendWorkerIterErr = [] ∧
    Instr.clientWrite ∉ lockHeldInstrs false tickWorkerIter ∧
    Instr.clientWrite ∉ lockHeldInstrs false tickWorkerIterEmpty := by
  decide

/-- C3 (counterexample): the `const` enum block of sink_type.go declares
no constant named Dummy — the sink-type enum does not contain a Dummy
value, so a SinkConfig's sink-type field cannot take one. -/
theorem C3_sink_type_counterexample :
    "Dummy" ∉ sinkTypeConsts.map Prod.fst := by decide

/-- C3 (amended): the sink-type enum comprises exactly the values StdIO,
InfluxUDP, InfluxHTTP and Elastic, assigned 0, 1, 2, 3 by `iota`; Dummy
is a sink implementation (package dummy), not a SinkType value. -/
theorem C3_sink_type_amended :
    sinkTypeConsts.map Prod.fst = ["StdIO", "InfluxUDP", "InfluxHTTP", "Elastic"] ∧
    sinkTypeConsts.map (fun p => p.2.val) = [0, 1, 2, 3] := by decide

/-- C4: for a batch `b` at the head of the send channel, a failed backend
write increments `batchesDropped` by exactly 1 and leaves `batchesSent`
unchanged; a successful write increments `batchesSent` by exactly 1 and
leaves `batchesDropped` unchanged; in both cases the worker's next
receive sees exactly the remaining batches (`b` is consumed once, never
re-queued, its single `client.Write` call being recorded in `written`),
and the ingestion path is untouched: the active batch and `eventsPushed`
are unchanged and no error value is produced. -/
theorem C4_send_worker (write : Batch → Bool) (s : InfluxSink)
    (b : Batch) (rest : List Batch) (h : s.sendChan = b :: rest) :
    (write b = false →
      (sendStep write s).stats.batchesDropped = s.stats.batchesDropped + 1 ∧
      (sendStep write s).stats.batchesSent = s.stats.batchesSent) ∧
    (write b = true →
      (sendStep write s).stats.batchesSent = s.stats.batchesSent + 1 ∧
      (sendStep write s).stats.batchesDropped = s.stats.batchesDropped) ∧
    (sendStep write s).sendChan = rest ∧
    (sendStep write s).written = s.written ++ [b] ∧
    (sendStep write s).batch = s.batch ∧
    (sendStep write s).stats.eventsPushed = s.stats.eventsPushed := by
  cases hw : write b <;>
    simp [sendStep, h, hw, SinkStats.IncrBatchSent, SinkStats.IncrBatchDropped]

/-- C4 (witness): a concrete failing write on a one-batch channel drops
exactly one batch and leaves the channel empty. -/
theorem C4_send_worker_witness :
    (sendStep (fun _ => false) { sendChan := [⟨[5]⟩] }).stats.batchesDropped = 1 ∧
    (sendStep (fun _ => false) { sendChan := [⟨[5]⟩] }).sendChan = [] := by
  have h := C4_send_worker (fun _ => false) { sendChan := [⟨[5]⟩] } ⟨[5]⟩ [] rfl
  exact ⟨(h.1 rfl).1, h.2.2.1⟩

/-- C5: at a timer tick with an empty active batch the tick worker does
nothing at all — no hand-off, and in particular `batchesSent` and
`batchesDropped` are unchanged; with a non-empty batch it hands exactly
that batch to the delivery channel and replaces it by a new empty one,
itself touching no counter. -/
theorem C5_tick_worker (s : InfluxSink) :
    (s.batch.Points = [] → tickStep s = s) ∧
    (s.batch.Points ≠ [] →
      (tickStep s).sendChan = s.sendChan ++ [s.batch] ∧
      (tickStep s).handed = s.handed ++ [s.batch] ∧
      (tickStep s).batch.Points = [] ∧
      (tickStep s).stats.batchesSent = s.stats.batchesSent ∧
      (tickStep s).stats.batchesDropped = s.stats.batchesDropped) := by
  constructor
  · intro h
    have h0 : s.batch.Points.length = 0 := by rw [h]; rfl
    simp [tickStep, h0]
  · intro h
    have hb : s.batch.Points.length ≠ 0 := by
      simpa [List.length_eq_zero] using h
    simp only [tickStep]
    rw [if_pos hb]
    exact ⟨rfl, rfl, rfl, rfl, rfl⟩

/-- C5 (witness): the empty case at the all-empty state, and the hand-off
of a concrete one-point batch. -/
theorem C5_tick_worker_witness :
    tickStep {} = ({} : InfluxSink) ∧
    (tickStep { batch := ⟨[7]⟩ }).sendChan = [⟨[7]⟩] := by
  refine ⟨(C5_tick_worker {}).1 rfl, ?_⟩
  have h := (C5_tick_worker { batch := ⟨[7]⟩ }).2 (by decide)
  simpa using h.1

/-- C6: for any steady-state flow state, the timestamps at which the
cooldown gate reports Updates are successively at least one cooldown
apart (no second Update sooner than the configured interval after the
previous one), and the first packet observed once the cooldown has
elapsed since the last report produces exactly one Update — the gate is
driven by packets, not by a wall-clock tick. -/
theorem C6_cooldown_gate (c : Nat) (st : FlowState) (ts : List Nat)
    (t : Nat) (h : st.lastReport + c ≤ t) :
    List.Chain' (fun a b => a + c ≤ b) (cooldownRun c st ts) ∧
    cooldownRun c st [t] = [t] := by
  refine ⟨cooldownRun_chain c ts st, ?_⟩
  simp [cooldownRun, cooldownStep, h]

/-- C6 (witness): with the test's 20 ms cooldown, a packet at 5 ms is
suppressed and packets at 25 ms and 50 ms each produce one Update, 25 ms
apart; a lone packet at 25 ms produces exactly one Update. -/
theorem C6_cooldown_gate_witness :
    List.Chain' (fun a b => a + 20 ≤ b) (cooldownRun 20 {} [5, 25, 50]) ∧
    cooldownRun 20 {} [25] = [25] :=
  C6_cooldown_gate 20 {} [5, 25, 50] 25 (by decide)

/-- C7: over any interleaving of pushes, ticker firings and send-worker
cycles starting from a fresh sink, the sequence of batches passed to the
backend's `Write` is a prefix of the sequence of batches the tick worker
closed, in the same order (single worker, single FIFO channel — no two
batches are ever reordered); the successfully delivered batches are, in
order, a subsequence of the closed ones (an individual batch may be
dropped rather than delivered). -/
theorem C7_fifo_delivery (write : Batch → Bool) (ops : List SinkOp) :
    (sinkRun write {} ops).written <+: (sinkRun write {} ops).handed ∧
    ((sinkRun write {} ops).written.filter write).Sublist
      (sinkRun write {} ops).handed := by
  have h := sinkRun_handed_eq write ops {} rfl
  refine ⟨⟨(sinkRun write {} ops).sendChan, h⟩, ?_⟩
  exact List.Sublist.trans (List.filter_sublist _)
    (List.IsPrefix.sublist ⟨(sinkRun write {} ops).sendChan, h⟩)

/-- C8: every `Push` on the Dummy sink increments `eventsPushed` by
exactly 1 and `batchesDropped` by exactly 1 (the Dummy drops every event
by design) and leaves `batchesSent` unchanged; the Go signature returns
nothing, so no error can be returned or raised — the model is a total
state transformer. -/
theorem C8_dummy_push (d : Dummy) (e : AcctEvent) :
    (d.Push e).stats.eventsPushed = d.stats.eventsPushed + 1 ∧
    (d.Push e).stats.batchesDropped = d.stats.batchesDropped + 1 ∧
    (d.Push e).stats.batchesSent = d.stats.batchesSent := by
  simp [Dummy.Push, SinkStats.IncrEventsPushed, SinkStats.IncrBatchDropped]

/-- C9: under every sequence of operations on a Dummy sink created by
`New`, the stats snapshot satisfies `eventsPushed = batchesDropped` and
`batchesSent = 0`: `Push` is the only counter-mutating operation, it
increments `eventsPushed` and `batchesDropped` together, and nothing
increments `batchesSent`. -/
theorem C9_dummy_invariant (ops : List DummyOp) :
    (Dummy.New.runOps ops).Stats.eventsPushed =
      (Dummy.New.runOps ops).Stats.batchesDropped ∧
    (Dummy.New.runOps ops).Stats.batchesSent = 0 :=
  Dummy.runOps_invariant ops Dummy.New rfl rfl

/-- C10: a Dummy fresh from `New` is uninitialized and has the empty
name; `Init sc` returns `nil` for every configuration, after which
`IsInit` is true and `Name` returns `sc.Name`. -/
theorem C10_dummy_lifecycle :
    Dummy.New.IsInit = false ∧ Dummy.New.Name = "" ∧
    ∀ (d : Dummy) (sc : SinkConfig),
      (d.Init sc).2 = none ∧
      ((d.Init sc).1).IsInit = true ∧
      ((d.Init sc).1).Name = sc.Name :=
  ⟨rfl, rfl, fun _ _ => ⟨rfl, rfl, rfl⟩⟩

end Conntracct
